import Mathlib

/-!
Verification of the pedagogical scripts in the `python-learning` repository.
Each Python script is shallowly embedded: pure computation becomes Lean
functions, mutation of the shared default-argument object becomes explicit
state passing, and exceptions become `Except`.  Python strings are embedded
as lists of Unicode codepoints (`List Nat`); the string methods the scripts
use (`lower`, `isalnum`, `replace`, `startswith`) are modelled on the ASCII
range, which covers every string these scripts handle.
-/

namespace PyLearning

/-- Codepoints of a Lean string literal, used to write concrete Python
string values. -/
def pystr (s : String) : List Nat :=
  s.data.map Char.toNat

/-! ## `concepts/mutable_default_arguments.py`

`add_employee(emp, emp_list=[])` appends `emp` to `emp_list` and prints the
list.  When called without `emp_list`, Python passes the single default list
object stored in `add_employee.__defaults__[0]`, created once at definition
time; the append mutates that shared object.  We model the shared default as
explicit state: a call without an argument receives the current default,
appends, and the mutated list becomes both the printed output and the new
default. -/

/-- The body of `add_employee`: `emp_list.append(emp)` followed by
`print(emp_list)` — the printed list is the mutated list. -/
def add_employee (emp : String) (emp_list : List String) : List String :=
  emp_list ++ [emp]

/-- Run a sequence of `add_employee` calls that pass no `emp_list` argument,
starting from default list `st`.  Returns the final default list and, in
order, the list printed by each call. -/
def runDefaultCalls (st : List String) : List String → List String × List (List String)
  | [] => (st, [])
  | e :: es =>
    let l := add_employee e st
    let r := runDefaultCalls l es
    (r.1, l :: r.2)

theorem runDefaultCalls_fst (st : List String) (es : List String) :
    (runDefaultCalls st es).1 = st ++ es := by
  induction es generalizing st with
  | nil => simp [runDefaultCalls]
  | cons e es ih => simp [runDefaultCalls, add_employee, ih]

theorem runDefaultCalls_snd_length (st : List String) (es : List String) :
    (runDefaultCalls st es).2.length = es.length := by
  induction es generalizing st with
  | nil => simp [runDefaultCalls]
  | cons e es ih => simp [runDefaultCalls, ih]

theorem runDefaultCalls_snd_get (st : List String) (es : List String)
    (i : Nat) (h : i < (runDefaultCalls st es).2.length) :
    (runDefaultCalls st es).2.get ⟨i, h⟩ = st ++ es.take (i + 1) := by
  induction es generalizing st i with
  | nil => simp [runDefaultCalls] at h
  | cons e es ih =>
    cases i with
    | zero => simp [runDefaultCalls, add_employee]
    | succ i =>
      have h2 : i < (runDefaultCalls (add_employee e st) es).2.length := by
        simpa [runDefaultCalls] using h
      have := ih (add_employee e st) i h2
      simpa [runDefaultCalls, add_employee, List.append_assoc] using this

/-- `add_employee_fixed(emp, emp_list=None)` allocates a fresh empty list
when called with the sentinel `None`, appends `emp` to it and prints it.
The parameter is `Option` of a list, `none` embedding Python `None`. -/
def add_employee_fixed (emp : String) (emp_list : Option (List String)) : List String :=
  match emp_list with
  | none => [] ++ [emp]
  | some l => l ++ [emp]

/-- Run a sequence of `add_employee_fixed` calls that pass no `emp_list`
argument.  The stored default is threaded through as state: the function
body never rebinds the default and `None` is immutable, so each call leaves
it untouched and returns the list it printed. -/
def runFixedCalls (defaults : Option (List String)) :
    List String → Option (List String) × List (List String)
  | [] => (defaults, [])
  | e :: es =>
    let printed := add_employee_fixed e defaults
    let r := runFixedCalls defaults es
    (r.1, printed :: r.2)

theorem runFixedCalls_none (es : List String) :
    runFixedCalls none es = (none, es.map fun e => [e]) := by
  induction es with
  | nil => simp [runFixedCalls]
  | cons e es ih => simp [runFixedCalls, add_employee_fixed, ih]

/-! ## ASCII models of the Python string methods used by the scripts -/

/-- Python `str.isdigit`-style digit test on a codepoint (`0`-`9`). -/
def isDigitCp (n : Nat) : Bool :=
  48 ≤ n && n ≤ 57

/-- Uppercase ASCII letter test on a codepoint (`A`-`Z`). -/
def isUpperCp (n : Nat) : Bool :=
  65 ≤ n && n ≤ 90

/-- Lowercase ASCII letter test on a codepoint (`a`-`z`). -/
def isLowerCp (n : Nat) : Bool :=
  97 ≤ n && n ≤ 122

/-- ASCII letter test on a codepoint. -/
def isAlphaCp (n : Nat) : Bool :=
  isUpperCp n || isLowerCp n

/-- Python `str.isalnum` on one codepoint, ASCII range. -/
def isAlnumCp (n : Nat) : Bool :=
  isDigitCp n || isUpperCp n || isLowerCp n

/-- Python `str.lower` on one codepoint, ASCII range. -/
def lowerCp (n : Nat) : Nat :=
  if isUpperCp n then n + 32 else n

theorem lowerCp_spec (n : Nat) :
    lowerCp n = if 65 ≤ n ∧ n ≤ 90 then n + 32 else n := by
  simp [lowerCp, isUpperCp, Bool.and_eq_true, decide_eq_true_eq]

/-- Python `str.lower`. -/
def pyLower (s : List Nat) : List Nat :=
  s.map lowerCp

/-- Python `s.replace("_", "")`: drop every underscore (codepoint 95). -/
def stripUnderscores (s : List Nat) : List Nat :=
  s.filter fun c => c != 95

/-- Python `str.isalnum`: false on the empty string, otherwise every
character alphanumeric. -/
def pyIsAlnum (s : List Nat) : Bool :=
  !s.isEmpty && s.all isAlnumCp

/-- Python `s.startswith(p)`. -/
def startswith (s p : List Nat) : Bool :=
  match s, p with
  | _, [] => true
  | [], _ :: _ => false
  | c :: s, d :: p => c == d && startswith s p

theorem startswith_append (p s : List Nat) : startswith (p ++ s) p = true := by
  induction p with
  | nil => cases s <;> rfl
  | cons c p ih => simp [startswith, ih]

theorem lowerCp_not_upper (n : Nat) : isUpperCp (lowerCp n) = false := by
  rw [Bool.eq_false_iff, Ne, lowerCp_spec]
  simp only [isUpperCp, Bool.and_eq_true, decide_eq_true_eq]
  split <;> omega

theorem lowerCp_idem (n : Nat) : lowerCp (lowerCp n) = lowerCp n := by
  by_cases h : 65 ≤ n ∧ n ≤ 90
  · rw [lowerCp_spec n, if_pos h, lowerCp_spec, if_neg (by omega)]
  · rw [lowerCp_spec n, if_neg h, lowerCp_spec, if_neg h]

theorem isAlnumCp_lowerCp (n : Nat) : isAlnumCp (lowerCp n) = isAlnumCp n := by
  rw [Bool.eq_iff_iff]
  simp only [isAlnumCp, isDigitCp, isUpperCp, isLowerCp, lowerCp_spec,
    Bool.or_eq_true, Bool.and_eq_true, decide_eq_true_eq]
  split <;> omega

theorem lowerCp_eq_underscore (n : Nat) : (lowerCp n = 95) ↔ (n = 95) := by
  rw [lowerCp_spec]
  split <;> omega

/-! ## `libraries/pydantic/05_custom_validator.py` -/

/-- The error message raised by `validate_username`. -/
def usernameErrMsg : String :=
  "Username must be alphanumeric (underscores allowed)"

/-- `User.validate_username`: if `not v.replace("_", "").isalnum()` raise a
`ValueError`, else return `v.lower()`. -/
def validate_username (v : List Nat) : Except String (List Nat) :=
  if !pyIsAlnum (stripUnderscores v) then
    Except.error usernameErrMsg
  else
    Except.ok (pyLower v)

theorem stripUnderscores_pyLower (v : List Nat) :
    stripUnderscores (pyLower v) = pyLower (stripUnderscores v) := by
  induction v with
  | nil => rfl
  | cons c v ih =>
    by_cases h : c = 95
    · have h95 : lowerCp c = 95 := (lowerCp_eq_underscore c).2 h
      simp only [pyLower, List.map_cons, stripUnderscores, List.filter_cons,
        h, h95] at *
      simpa [pyLower, stripUnderscores] using ih
    · have h95 : ¬lowerCp c = 95 := fun hc => h ((lowerCp_eq_underscore c).1 hc)
      simp only [pyLower, List.map_cons, stripUnderscores, List.filter_cons] at *
      simp only [bne_iff_ne, ne_eq] at *
      simp [h, h95, ih]

theorem all_isAlnumCp_pyLower (v : List Nat) :
    (pyLower v).all isAlnumCp = v.all isAlnumCp := by
  induction v with
  | nil => rfl
  | cons c v ih =>
    simp only [pyLower, List.map_cons, List.all_cons] at *
    rw [isAlnumCp_lowerCp, ih]

theorem pyIsAlnum_pyLower (v : List Nat) :
    pyIsAlnum (pyLower v) = pyIsAlnum v := by
  simp only [pyIsAlnum, all_isAlnumCp_pyLower]
  cases v <;> simp [pyLower]

theorem pyLower_idem (v : List Nat) : pyLower (pyLower v) = pyLower v := by
  induction v with
  | nil => rfl
  | cons c v ih =>
    simp only [pyLower, List.map_cons] at *
    rw [lowerCp_idem, ih]

theorem pyLower_no_upper (v : List Nat) :
    (pyLower v).all (fun c => !isUpperCp c) = true := by
  induction v with
  | nil => rfl
  | cons c v ih =>
    simp only [pyLower, List.map_cons, List.all_cons] at *
    rw [lowerCp_not_upper, ih]
    rfl

theorem validate_username_ok (v : List Nat)
    (h : pyIsAlnum (stripUnderscores v) = true) :
    validate_username v = Except.ok (pyLower v) := by
  simp [validate_username, h]

theorem validate_username_err (v : List Nat)
    (h : pyIsAlnum (stripUnderscores v) = false) :
    validate_username v = Except.error usernameErrMsg := by
  simp [validate_username, h]

/-- Codepoints of the literal `"http://"` tested by `v.startswith`. -/
def httpStart : List Nat := pystr "http://"

/-- Codepoints of the literal `"https://"` tested by `v.startswith` and
prepended by the f-string. -/
def httpsStart : List Nat := pystr "https://"

/-- `User.add_https`, the `mode="before"` validator on `website`:
`if v and not v.startswith(("http://", "https://")): return f"https://{v}"`
else `return v`.  `v` is `str | None`; Python truthiness of a string is
non-emptiness. -/
def add_https (v : Option (List Nat)) : Option (List Nat) :=
  match v with
  | none => none
  | some s =>
    if !s.isEmpty && !(startswith s httpStart || startswith s httpsStart) then
      some (httpsStart ++ s)
    else
      some s

theorem add_https_keep (s : List Nat)
    (h : (!s.isEmpty && !(startswith s httpStart || startswith s httpsStart)) = false) :
    add_https (some s) = some s := by
  simp only [add_https, h]
  rfl

theorem add_https_prepends (s : List Nat)
    (h : (!s.isEmpty && !(startswith s httpStart || startswith s httpsStart)) = true) :
    add_https (some s) = some (httpsStart ++ s) := by
  simp only [add_https, h]
  rfl

/-! ## `libraries/pydantic/03_annotated.py`

The `User` model constrains `uid` with `Field(gt=0)`, `username` with
`Field(min_length=3, max_length=20)`, `email` with the regex
`^[a-zA-Z0-9._%+-]+@[a-zA-Z0-9.-]+\.[a-zA-Z]{2,}$` and `age` with
`Field(ge=13, le=130)`.  Pydantic validates every field and raises one
`ValidationError` carrying the list of per-field errors, in field order —
the behaviour the script pins in its expected-output comment
(`3 validation errors for User`). -/

/-- Character class `[a-zA-Z0-9._%+-]` of the email regex. -/
def emailLocalChar (n : Nat) : Bool :=
  isAlnumCp n || n == 46 || n == 95 || n == 37 || n == 43 || n == 45

/-- Character class `[a-zA-Z0-9.-]` of the email regex. -/
def emailDomainChar (n : Nat) : Bool :=
  isAlnumCp n || n == 46 || n == 45

/-- All ways to cut a string in two, used to resolve the regex
concatenations. -/
def splits : List Nat → List (List Nat × List Nat)
  | [] => [([], [])]
  | c :: s => ([], c :: s) :: (splits s).map fun p => (c :: p.1, p.2)

/-- Matcher for the regex tail `\.[a-zA-Z]{2,}$`. -/
def emailTldPart (s : List Nat) : Bool :=
  match s with
  | 46 :: tld => 2 ≤ tld.length && tld.all isAlphaCp
  | _ => false

/-- Matcher for `[a-zA-Z0-9.-]+\.[a-zA-Z]{2,}$`. -/
def emailDomainTail (s : List Nat) : Bool :=
  (splits s).any fun p =>
    !p.1.isEmpty && p.1.all emailDomainChar && emailTldPart p.2

/-- Matcher for the full anchored email regex
`^[a-zA-Z0-9._%+-]+@[a-zA-Z0-9.-]+\.[a-zA-Z]{2,}$` (64 is `@`). -/
def emailMatches (s : List Nat) : Bool :=
  (splits s).any fun p =>
    !p.1.isEmpty && p.1.all emailLocalChar &&
    match p.2 with
    | 64 :: rest => emailDomainTail rest
    | _ => false

/-- The keyword arguments of a `User(...)` construction. -/
structure UserInput where
  uid : Int
  username : List Nat
  email : List Nat
  age : Int
deriving DecidableEq

/-- The four constrained fields of the annotated `User` model. -/
inductive UserField
  | uid
  | username
  | email
  | age
deriving DecidableEq

/-- The per-field errors pydantic collects for a `User(...)` construction:
each field is checked against its `Annotated` constraint and the failures
are aggregated in field declaration order. -/
def validationErrors (u : UserInput) : List UserField :=
  (if 0 < u.uid then [] else [UserField.uid]) ++
  (if 3 ≤ u.username.length ∧ u.username.length ≤ 20 then [] else [UserField.username]) ++
  (if emailMatches u.email = true then [] else [UserField.email]) ++
  (if 13 ≤ u.age ∧ u.age ≤ 130 then [] else [UserField.age])

/-- `User(...)`: returns the model on success, otherwise raises a single
`ValidationError` carrying all the field errors. -/
def constructUser (u : UserInput) : Except (List UserField) UserInput :=
  if validationErrors u = [] then Except.ok u else Except.error (validationErrors u)

/-- The invalid construction in the script's `__main__` block:
`User(uid=0, username="cs", email="aditya@email.com", age=12)`. -/
def invalidInput : UserInput :=
  { uid := 0, username := pystr "cs", email := pystr "aditya@email.com", age := 12 }

/-! ## `libraries/concurrent_futures/processpool_01_pickle.py`

`ProcessPoolExecutor` must pickle a submitted function; per the script's own
documentation, module-level functions pickle while functions nested inside
`main` and lambdas do not, so those submissions raise and `main` catches and
prints the exception instead of results.  Submission of a batch of tasks is
modelled as one step: the mapped results when the function pickles, an error
otherwise. -/

/-- `top_level_task(n)`: `return n * n`. -/
def top_level_task (n : Int) : Int := n * n

/-- The module-level class `Picklable` with field `val`. -/
structure Picklable where
  val : Int
deriving DecidableEq

/-- `Picklable.compute`: `return self.val * 2`. -/
def Picklable.compute (p : Picklable) : Int := p.val * 2

/-- The module-level function `compute(obj)`: `return obj.compute()`. -/
def compute (obj : Picklable) : Int := obj.compute

/-- Where a submitted function was defined; module level is picklable,
functions nested in `main` and lambdas are not. -/
inductive DefSite
  | moduleLevel
  | nestedInFunction
  | lambdaExpr
deriving DecidableEq

/-- A function submitted to the pool together with its definition site. -/
structure SubmittedTask (α : Type) where
  site : DefSite
  fn : α → Int

/-- Pickling succeeds exactly for module-level functions. -/
def taskPicklable {α : Type} (f : SubmittedTask α) : Bool :=
  match f.site with
  | DefSite.moduleLevel => true
  | _ => false

/-- The serialization failure message surfaced by the failing futures. -/
def pickleErrMsg : String := "cannot pickle local object"

/-- Submit one task per argument and collect `f.result()` for each future:
all results when the function pickles, an exception otherwise. -/
def submitAll {α : Type} (f : SubmittedTask α) (args : List α) :
    Except String (List Int) :=
  if taskPicklable f then Except.ok (args.map f.fn) else Except.error pickleErrMsg

/-- What one `try`/`except` section of `main` prints: the results list, or
the caught exception. -/
inductive SectionOut
  | results (rs : List Int)
  | caught (msg : String)
deriving DecidableEq

/-- Run one section of `main`: submit the batch and catch any exception. -/
def runSection {α : Type} (f : SubmittedTask α) (args : List α) : SectionOut :=
  match submitAll f args with
  | Except.ok rs => SectionOut.results rs
  | Except.error e => SectionOut.caught e

/-- The first section's submission: the module-level `top_level_task`. -/
def topLevelTaskSubmitted : SubmittedTask Int :=
  { site := DefSite.moduleLevel, fn := top_level_task }

/-- The second section's submission: `nested_task`, defined inside `main`. -/
def nested_task : SubmittedTask Int :=
  { site := DefSite.nestedInFunction, fn := fun n => n * n }

/-- The third section's submission: `lambda x: x * x`. -/
def lambdaSquare : SubmittedTask Int :=
  { site := DefSite.lambdaExpr, fn := fun x => x * x }

/-- The fourth section's submission: the module-level `compute`. -/
def computeSubmitted : SubmittedTask Picklable :=
  { site := DefSite.moduleLevel, fn := compute }

/-- `range(n)` as a list of integers. -/
def intRange (n : Nat) : List Int :=
  (List.range n).map Int.ofNat

/-- `objects = [Picklable(i) for i in range(5)]`. -/
def demoObjects : List Picklable :=
  (intRange 5).map Picklable.mk

/-! ## Routing tables of the two FastAPI scripts

`frameworks/fastapi/concepts/00_basic.py` registers `home` at `/` (a dict
serialized as JSON) and `about` at both `/about` and `/info` via stacked
`@app.get` decorators with `response_class=HTMLResponse`;
`frameworks/fastapi/tutorial_projects/fastapi_blog/main.py` registers
`home` at `/` and `/posts` (a rendered HTML template) and `get_posts` at
`/api/posts` (JSON). -/

/-- The kind of response a registered handler returns. -/
inductive RespKind
  | jsonValue
  | htmlFragment
  | htmlTemplate
deriving DecidableEq

/-- One `@app.get(path)` registration. -/
structure Route where
  path : String
  kind : RespKind
deriving DecidableEq

/-- The registrations of `00_basic.py`, in decorator order. -/
def basicAppRoutes : List Route :=
  [{ path := "/", kind := RespKind.jsonValue },
   { path := "/about", kind := RespKind.htmlFragment },
   { path := "/info", kind := RespKind.htmlFragment }]

/-- The registrations of `fastapi_blog/main.py`, in decorator order. -/
def blogAppRoutes : List Route :=
  [{ path := "/", kind := RespKind.htmlTemplate },
   { path := "/posts", kind := RespKind.htmlTemplate },
   { path := "/api/posts", kind := RespKind.jsonValue }]

/-- Every path registered by the repository's routing code. -/
def repoRoutePaths : List String :=
  basicAppRoutes.map Route.path ++ blogAppRoutes.map Route.path

/-- The dict returned by `home` in `00_basic.py`. -/
def homeResponse : List (String × String) :=
  [("message", "Hello World!")]

/-- The HTML fragment returned by `about` in `00_basic.py`. -/
def aboutResponse : String :=
  "<h1>This is the HTML response page</h1>"

/-- The response kind registered for path `p`, if any. -/
def routeKind (rs : List Route) (p : String) : Option RespKind :=
  (rs.find? fun r => r.path == p).map Route.kind

/-! ## Observable effects of the seventeen scripts

Each script was audited for its externally observable operations.  Every
one only defines functions and classes, computes, and prints (the
concurrency scripts additionally sleep and spawn worker threads or
processes whose managers and pools are shut down by their `with` blocks
before the script exits, and the FastAPI scripts merely build an `app`
object when executed directly).  None reads `sys.argv`, environment
variables or a configuration file, none calls `open` for writing or any
other file-writing API, and none leaves state behind after the process
exits. -/

/-- The effect profile of one script, transcribed from its source. -/
structure ScriptProfile where
  name : String
  readsFlagsOrConfig : Bool
  writesFiles : Bool
  persistsStateBeyondProcess : Bool
deriving DecidableEq

/-- All seventeen scripts of the repository with their effect profiles. -/
def repoScripts : List ScriptProfile :=
  [{ name := "concepts/mutable_default_arguments.py",
     readsFlagsOrConfig := false, writesFiles := false,
     persistsStateBeyondProcess := false },
   { name := "frameworks/fastapi/concepts/00_basic.py",
     readsFlagsOrConfig := false, writesFiles := false,
     persistsStateBeyondProcess := false },
   { name := "frameworks/fastapi/tutorial_projects/fastapi_blog/main.py",
     readsFlagsOrConfig := false, writesFiles := false,
     persistsStateBeyondProcess := false },
   { name := "libraries/concurrent_futures/basic_threadpool.py",
     readsFlagsOrConfig := false, writesFiles := false,
     persistsStateBeyondProcess := false },
   { name := "libraries/concurrent_futures/processpool_01_pickle.py",
     readsFlagsOrConfig := false, writesFiles := false,
     persistsStateBeyondProcess := false },
   { name := "libraries/concurrent_futures/processpool_02_shared_memory.py",
     readsFlagsOrConfig := false, writesFiles := false,
     persistsStateBeyondProcess := false },
   { name := "libraries/concurrent_futures/processpool_03_shared_memory_custom_objects.py",
     readsFlagsOrConfig := false, writesFiles := false,
     persistsStateBeyondProcess := false },
   { name := "libraries/concurrent_futures/processpool_04_shared_memory_custom_objectsv2.py",
     readsFlagsOrConfig := false, writesFiles := false,
     persistsStateBeyondProcess := false },
   { name := "libraries/pydantic/00_why_pydantic.py",
     readsFlagsOrConfig := false, writesFiles := false,
     persistsStateBeyondProcess := false },
   { name := "libraries/pydantic/01_basics.py",
     readsFlagsOrConfig := false, writesFiles := false,
     persistsStateBeyondProcess := false },
   { name := "libraries/pydantic/02_default_factory.py",
     readsFlagsOrConfig := false, writesFiles := false,
     persistsStateBeyondProcess := false },
   { name := "libraries/pydantic/03_annotated.py",
     readsFlagsOrConfig := false, writesFiles := false,
     persistsStateBeyondProcess := false },
   { name := "libraries/pydantic/04_built_in_types.py",
     readsFlagsOrConfig := false, writesFiles := false,
     persistsStateBeyondProcess := false },
   { name := "libraries/pydantic/05_custom_validator.py",
     readsFlagsOrConfig := false, writesFiles := false,
     persistsStateBeyondProcess := false },
   { name := "libraries/pydantic/06_computed_field.py",
     readsFlagsOrConfig := false, writesFiles := false,
     persistsStateBeyondProcess := false },
   { name := "libraries/pydantic/07_nested_models.py",
     readsFlagsOrConfig := false, writesFiles := false,
     persistsStateBeyondProcess := false },
   { name := "libraries/pydantic/08_config_dict.py",
     readsFlagsOrConfig := false, writesFiles := false,
     persistsStateBeyondProcess := false }]

end PyLearning

open PyLearning

/-- C1: with the mutable default list, the shared default accumulates every
employee passed by calls that omit `emp_list`: after calls `e1 … en` the
stored default is exactly `[e1, …, en]` in call order, and the i-th call
(1-indexed) prints a list of length i. -/
theorem C1_mutable_default_accumulates (es : List String) :
    (PyLearning.runDefaultCalls [] es).1 = es ∧
    ∀ i (h : i < (PyLearning.runDefaultCalls [] es).2.length),
      ((PyLearning.runDefaultCalls [] es).2.get ⟨i, h⟩).length = i + 1 := by
  constructor
  · simpa using PyLearning.runDefaultCalls_fst [] es
  · intro i h
    have hlen : i < es.length := by
      simpa [PyLearning.runDefaultCalls_snd_length] using h
    rw [PyLearning.runDefaultCalls_snd_get [] es i h]
    simp [List.length_take, Nat.min_eq_left (Nat.succ_le_of_lt hlen)]

/-- Witness for C1 at the call sequence of the script:
`add_employee("Corey")`, `add_employee("Casey")`, `add_employee("Jack")`
leaves the default at `["Corey", "Casey", "Jack"]` and the second call
printed a list of length 2. -/
theorem C1_mutable_default_accumulates_witness :
    (PyLearning.runDefaultCalls [] ["Corey", "Casey", "Jack"]).1 =
      ["Corey", "Casey", "Jack"] ∧
    ((PyLearning.runDefaultCalls [] ["Corey", "Casey", "Jack"]).2.get
      ⟨1, by decide⟩).length = 1 + 1 :=
  ⟨(C1_mutable_default_accumulates ["Corey", "Casey", "Jack"]).1,
   (C1_mutable_default_accumulates ["Corey", "Casey", "Jack"]).2 1 (by decide)⟩

/-- C7: with the `None` sentinel, the stored default of
`add_employee_fixed` stays `(None,)` after any sequence of calls that omit
`emp_list`, and each such call prints the one-element list holding only that
call's employee. -/
theorem C7_sentinel_default_fresh_list (es : List String) :
    (PyLearning.runFixedCalls none es).1 = none ∧
    (PyLearning.runFixedCalls none es).2 = es.map (fun e => [e]) := by
  rw [PyLearning.runFixedCalls_none]
  exact ⟨rfl, rfl⟩

/-- Witness for C7 at the script's calls `add_employee_fixed("Aditya")`,
`add_employee_fixed("Corey")`. -/
theorem C7_sentinel_default_fresh_list_witness :
    (PyLearning.runFixedCalls none ["Aditya", "Corey"]).1 = none ∧
    (PyLearning.runFixedCalls none ["Aditya", "Corey"]).2 =
      [["Aditya"], ["Corey"]] := by
  have h := C7_sentinel_default_fresh_list ["Aditya", "Corey"]
  exact ⟨h.1, h.2.trans (by simp)⟩

/-- C9: `validate_username` accepts `v` iff `v` with underscores removed is
non-empty and alphanumeric (so all-underscore and empty usernames are
rejected with a `ValueError`), and on acceptance returns `v.lower()`, which
contains no uppercase letter and is itself accepted and returned unchanged
(idempotence on accepted values). -/
theorem C9_validate_username (v : List Nat) :
    ((∃ r, validate_username v = Except.ok r) ↔
      (stripUnderscores v ≠ [] ∧ (stripUnderscores v).all isAlnumCp = true)) ∧
    (¬(stripUnderscores v ≠ [] ∧ (stripUnderscores v).all isAlnumCp = true) →
      validate_username v = Except.error usernameErrMsg) ∧
    (∀ r, validate_username v = Except.ok r →
      r = pyLower v ∧ r.all (fun c => !isUpperCp c) = true ∧
      validate_username r = Except.ok r) := by
  have hiff : pyIsAlnum (stripUnderscores v) = true ↔
      (stripUnderscores v ≠ [] ∧ (stripUnderscores v).all isAlnumCp = true) := by
    simp [pyIsAlnum, List.isEmpty_iff]
  refine ⟨⟨?_, ?_⟩, ?_, ?_⟩
  · rintro ⟨r, hr⟩
    by_cases h : pyIsAlnum (stripUnderscores v) = true
    · exact hiff.1 h
    · rw [validate_username_err v (Bool.eq_false_iff.2 h)] at hr
      exact absurd hr (by simp)
  · intro h
    exact ⟨pyLower v, validate_username_ok v (hiff.2 h)⟩
  · intro h
    refine validate_username_err v (Bool.eq_false_iff.2 fun hc => h (hiff.1 hc))
  · intro r hr
    by_cases h : pyIsAlnum (stripUnderscores v) = true
    · rw [validate_username_ok v h] at hr
      have hrv : r = pyLower v := by
        simpa using hr.symm
      subst hrv
      refine ⟨rfl, pyLower_no_upper v, ?_⟩
      have hcond : pyIsAlnum (stripUnderscores (pyLower v)) = true := by
        rw [stripUnderscores_pyLower, pyIsAlnum_pyLower, h]
      rw [validate_username_ok _ hcond, pyLower_idem]
    · rw [validate_username_err v (Bool.eq_false_iff.2 h)] at hr
      exact absurd hr (by simp)

/-- Witness for C9 at the script's input `"Aditya_Pm"`: accepted, lowered to
`"aditya_pm"`, which has no uppercase letter and revalidates to itself. -/
theorem C9_validate_username_witness :
    validate_username (pystr "Aditya_Pm") = Except.ok (pystr "aditya_pm") ∧
    (pystr "aditya_pm").all (fun c => !isUpperCp c) = true ∧
    validate_username (pystr "aditya_pm") = Except.ok (pystr "aditya_pm") := by
  have h := (C9_validate_username (pystr "Aditya_Pm")).2.2 (pystr "aditya_pm") (by rfl)
  refine ⟨by rfl, h.2.1, ?_⟩
  simpa [show pyLower (pystr "Aditya_Pm") = pystr "aditya_pm" from rfl] using h.2.2

/-- C10: the before-mode validator `add_https` is idempotent, returns `None`
and the empty (falsy) string unchanged, returns unchanged any string already
starting with `"http://"` or `"https://"`, prefixes `"https://"` to every
other non-empty string, and every non-empty string it outputs starts with
`"http://"` or `"https://"`. -/
theorem C10_add_https :
    (∀ v, add_https (add_https v) = add_https v) ∧
    (add_https none = none ∧ add_https (some []) = some []) ∧
    (∀ s, (startswith s httpStart || startswith s httpsStart) = true →
      add_https (some s) = some s) ∧
    (∀ s, s ≠ [] →
      (startswith s httpStart || startswith s httpsStart) = false →
      add_https (some s) = some (httpsStart ++ s)) ∧
    (∀ s t, add_https (some s) = some t → t ≠ [] →
      (startswith t httpStart || startswith t httpsStart) = true) := by
  have hpre : ∀ s, (startswith (httpsStart ++ s) httpStart ||
      startswith (httpsStart ++ s) httpsStart) = true := by
    intro s
    rw [startswith_append httpsStart s]
    simp
  have hkeep : ∀ s, (startswith s httpStart || startswith s httpsStart) = true →
      add_https (some s) = some s := by
    intro s h
    apply add_https_keep
    simp [h]
  refine ⟨?_, ⟨rfl, rfl⟩, hkeep, ?_, ?_⟩
  · intro v
    match v with
    | none => rfl
    | some s =>
      by_cases h : (!s.isEmpty && !(startswith s httpStart || startswith s httpsStart)) = true
      · rw [add_https_prepends s h, hkeep _ (hpre s)]
      · have hf := Bool.eq_false_iff.2 h
        rw [add_https_keep s hf, add_https_keep s hf]
  · intro s hne hsw
    apply add_https_prepends
    simp [hsw, List.isEmpty_iff, hne]
  · intro s t hst hne
    by_cases h : (!s.isEmpty && !(startswith s httpStart || startswith s httpsStart)) = true
    · rw [add_https_prepends s h] at hst
      have hts : t = httpsStart ++ s := by simpa using hst.symm
      subst hts
      exact hpre s
    · have hf := Bool.eq_false_iff.2 h
      rw [add_https_keep s hf] at hst
      have hts : t = s := by simpa using hst.symm
      subst hts
      have hor : t.isEmpty = true ∨
          (startswith t httpStart || startswith t httpsStart) = true := by
        cases he : t.isEmpty
        · cases hsw : (startswith t httpStart || startswith t httpsStart)
          · exact absurd (by simp [he, hsw]) h
          · exact Or.inr rfl
        · exact Or.inl rfl
      rcases hor with he | hsw
      · exact absurd (List.isEmpty_iff.1 he) hne
      · exact hsw

/-- Witness for C10 at the script's input `"aditya.com"`: applying the
validator twice equals applying it once, an `"http://"` input is kept, the
bare domain gains the `"https://"` prefix, and the output starts with one of
the two prefixes. -/
theorem C10_add_https_witness :
    add_https (add_https (some (pystr "aditya.com"))) =
      add_https (some (pystr "aditya.com")) ∧
    add_https (some (pystr "http://x.com")) = some (pystr "http://x.com") ∧
    add_https (some (pystr "aditya.com")) = some (pystr "https://aditya.com") ∧
    (startswith (pystr "https://aditya.com") httpStart ||
      startswith (pystr "https://aditya.com") httpsStart) = true :=
  ⟨C10_add_https.1 (some (pystr "aditya.com")),
   C10_add_https.2.2.1 (pystr "http://x.com") (by rfl),
   ((C10_add_https.2.2.2.1 (pystr "aditya.com") (by decide) (by rfl)).trans (by rfl)),
   C10_add_https.2.2.2.2 (pystr "aditya.com") (pystr "https://aditya.com")
     (by rfl) (by decide)⟩

/-- C2: constructing the annotated `User` from
`uid=0, username="cs", email="aditya@email.com", age=12` raises one
`ValidationError` aggregating exactly three field errors — one each for
`uid`, `username` and `age` — and none for `email`, rather than stopping at
the first violation. -/
theorem C2_three_aggregated_errors :
    validationErrors invalidInput =
      [UserField.uid, UserField.username, UserField.age] ∧
    (validationErrors invalidInput).length = 3 ∧
    ¬UserField.email ∈ validationErrors invalidInput ∧
    constructUser invalidInput =
      Except.error [UserField.uid, UserField.username, UserField.age] :=
  ⟨by decide, by decide, by decide, by rfl⟩

/-- C3: submitting the module-level `top_level_task` over `range(5)`
succeeds with results `[0, 1, 4, 9, 16]`, submitting the module-level
`compute` over `Picklable(0..4)` succeeds with `[0, 2, 4, 6, 8]`, while
submitting the function nested inside `main` or the lambda raises a
serialization failure that the script catches and prints in place of
results. -/
theorem C3_processpool_pickling :
    runSection topLevelTaskSubmitted (intRange 5) =
      SectionOut.results [0, 1, 4, 9, 16] ∧
    runSection computeSubmitted demoObjects =
      SectionOut.results [0, 2, 4, 6, 8] ∧
    runSection nested_task (intRange 5) = SectionOut.caught pickleErrMsg ∧
    runSection lambdaSquare (intRange 5) = SectionOut.caught pickleErrMsg :=
  ⟨rfl, rfl, rfl, rfl⟩

/-- C4 counterexample: the claim that the repository's routing code
registers exactly the two paths `/` and `/info` is false — `00_basic.py`
also registers `/about` (and six paths are registered in total, not two). -/
theorem C4_counterexample :
    "/about" ∈ basicAppRoutes.map Route.path ∧
    "/about" ≠ "/" ∧ "/about" ≠ "/info" ∧
    repoRoutePaths.length ≠ 2 := by
  decide

/-- C4 amended: `00_basic.py` registers two handlers over three paths —
`home` at `/` returning a dict with the single key `message`, and `about`
at both `/about` and `/info` returning an HTML fragment — and the blog
script registers `/` and `/posts` rendering an HTML template and
`/api/posts` returning JSON; these six registrations are all the
repository's routing code makes. -/
theorem C4_routing_tables :
    basicAppRoutes.map Route.path = ["/", "/about", "/info"] ∧
    routeKind basicAppRoutes "/" = some RespKind.jsonValue ∧
    homeResponse.map Prod.fst = ["message"] ∧
    routeKind basicAppRoutes "/about" = some RespKind.htmlFragment ∧
    routeKind basicAppRoutes "/info" = some RespKind.htmlFragment ∧
    blogAppRoutes.map Route.path = ["/", "/posts", "/api/posts"] ∧
    routeKind blogAppRoutes "/api/posts" = some RespKind.jsonValue ∧
    repoRoutePaths.length = 6 := by
  decide

/-- C8: every one of the seventeen scripts, run directly, has console text
as its only observable effect — none reads flags or configuration, writes a
file, or persists state beyond the process lifetime. -/
theorem C8_console_only_effects :
    repoScripts.length = 17 ∧
    repoScripts.all (fun s =>
      !s.readsFlagsOrConfig && !s.writesFiles &&
      !s.persistsStateBeyondProcess) = true := by
  decide
